import Mathlib

/-!
Shallow embedding of the building-feasibility engine of the
ai-building-design backend: the zoning-limit table and derived rules
(apps/core/constants.py), the mass-study solver
(apps/mass/services.py, MassCalculationService.calculate), the PNU
encoder and decoder, and the polygon-area and road-bearing helpers
(apps/land/services.py).  Python floats are modelled by exact reals;
Python ints by the unbounded integers they are.
-/

namespace AiBuilding

/-- Test whether the first character list is an initial segment of the
second (Python str.startswith). -/
def hasPrefixChars : List Char → List Char → Bool
  | [], _ => true
  | _ :: _, [] => false
  | p :: ps, c :: cs => p = c && hasPrefixChars ps cs

/-- Substring containment on character lists: the Python membership test
pat in s. -/
def hasSub (pat : List Char) : List Char → Bool
  | [] => pat.isEmpty
  | c :: cs => hasPrefixChars pat (c :: cs) || hasSub pat cs

/-- RegulationLimits record as returned by get_building_limits: coverage
and FAR percentages plus an optional height-limit phrase and note. -/
structure Limits where
  coverage : ℝ
  far : ℝ
  height_limit : Option String
  note : Option String

/-- Lookup of JEJU_BUILDING_LIMITS with the settlement-district override
(SETTLEMENT_DISTRICT_LIMITS) and the DEFAULT_BUILDING_LIMITS fallback
(apps/core/constants.py, get_building_limits). -/
def getBuildingLimits (use_zone : String) (is_settlement : Bool) : Limits :=
  if is_settlement then
    if hasSub "녹지".data use_zone.data then ⟨50, 100, none, some "취락지구 특례 적용"⟩
    else ⟨60, 100, none, some "취락지구 특례 적용"⟩
  else if use_zone = "제1종전용주거지역" then ⟨40, 80, none, none⟩
  else if use_zone = "제2종전용주거지역" then ⟨40, 120, none, none⟩
  else if use_zone = "제1종일반주거지역" then ⟨60, 200, none, none⟩
  else if use_zone = "제2종일반주거지역" then ⟨60, 250, none, none⟩
  else if use_zone = "제3종일반주거지역" then ⟨50, 300, none, none⟩
  else if use_zone = "준주거지역" then ⟨60, 500, none, none⟩
  else if use_zone = "중심상업지역" then ⟨80, 1300, none, none⟩
  else if use_zone = "일반상업지역" then ⟨80, 1000, none, none⟩
  else if use_zone = "근린상업지역" then ⟨60, 700, none, none⟩
  else if use_zone = "준공업지역" then ⟨60, 300, none, none⟩
  else if use_zone = "자연녹지지역" then ⟨20, 80, some "4층 이하", none⟩
  else if use_zone = "계획관리지역" then ⟨40, 80, some "4층 이하", none⟩
  else if use_zone = "생산관리지역" then ⟨20, 60, some "3층 이하", none⟩
  else if use_zone = "보전관리지역" then ⟨20, 60, some "3층 이하", none⟩
  else if use_zone = "농림지역" then ⟨20, 50, some "3층 이하", none⟩
  else ⟨20, 80, none, none⟩

/-- Default per-floor height DEFAULT_FLOOR_HEIGHT = 3.0 m. -/
def defaultFloorHeight : ℝ := 3

/-- Daylight north-setback rule calculate_north_setback: zero outside
residential zones, flat 1.5 m up to height 9 m, then linear growth. -/
noncomputable def calcNorthSetback (height : ℝ) (use_zone : String) : ℝ :=
  if hasSub "주거".data use_zone.data then
    (if height ≤ 9 then 1.5 else 1.5 + (height - 9) * 0.5)
  else 0

/-- Height-limit check of MassCalculationService.calculate lines 92-98:
substring tests of the height-limit phrase choose the floor cap. -/
def heightOkCalc (height_limit : Option String) (floors : ℤ) : Bool :=
  match height_limit with
  | none => true
  | some s =>
    if s = "" then true
    else if hasSub "4층".data s.data then decide (floors ≤ 4)
    else if hasSub "3층".data s.data then decide (floors ≤ 3)
    else true

/-- Leading-digit parse of a floor-cap phrase, following the spec sentence
that asks to parse the leading digit(s) of the cap; used to compare the
implemented substring test against the specified parse. -/
def parseCap (s : String) : Option ℕ :=
  let ds := s.data.takeWhile Char.isDigit
  if ds = [] then none
  else some (ds.foldl (fun n c => 10 * n + (c.toNat - 48)) 0)

/-- Python int() conversion of a real: truncation toward zero. -/
noncomputable def pytrunc (x : ℝ) : ℤ := if 0 ≤ x then ⌊x⌋ else ⌈x⌉

/-- Python round(x, 2) idealised over the reals. -/
noncomputable def round2 (x : ℝ) : ℝ := ((round (x * 100) : ℤ) : ℝ) / 100

/-- Python round(x, 1) idealised over the reals. -/
noncomputable def round1 (x : ℝ) : ℝ := ((round (x * 10) : ℤ) : ℝ) / 10

/-- Cached land record fields the solver reads (apps/land/models.LandCache). -/
structure LandCache where
  parcel_area : Option ℝ
  use_zone : Option String
  latitude : Option ℝ
  longitude : Option ℝ

/-- Per-side setback distances handed to the solver. -/
structure Setbacks where
  front : ℝ
  back : ℝ
  left : ℝ
  right : ℝ

/-- Evaluation of the Python expression self.land.parcel_area or 500.0;
None and 0.0 are both falsy. -/
noncomputable def resolvedArea (l : LandCache) : ℝ :=
  match l.parcel_area with
  | none => 500
  | some a => if a = 0 then 500 else a

/-- Evaluation of the Python expression self.land.use_zone or the default
zone; None and the empty string are both falsy. -/
def resolvedZone (l : LandCache) : String :=
  match l.use_zone with
  | none => "제2종일반주거지역"
  | some z => if z = "" then "제2종일반주거지역" else z

/-- State after the coverage block of calculate (lines 52-66). -/
structure CoverageState where
  width : ℝ
  depth : ℝ
  area : ℝ
  ratio : ℝ
  ok : Bool

/-- Coverage check and correction (lines 54-66): on excess, width and depth
are both scaled by sqrt(max_building_area / building_area) and the ratio is
assigned the legal limit. -/
noncomputable def coverageStage (parcel_area legal_coverage w d : ℝ) : CoverageState :=
  let building_area := w * d
  let coverage_ratio := building_area / parcel_area * 100
  if coverage_ratio ≤ legal_coverage then
    ⟨w, d, building_area, coverage_ratio, decide (coverage_ratio ≤ legal_coverage)⟩
  else
    let max_building_area := parcel_area * legal_coverage / 100
    let scale_factor := Real.sqrt (max_building_area / building_area)
    let w2 := w * scale_factor
    let d2 := d * scale_factor
    ⟨w2, d2, w2 * d2, legal_coverage, true⟩

/-- State after the FAR block of calculate (lines 68-82). -/
structure FarState where
  floors : ℤ
  total : ℝ
  ratio : ℝ
  ok : Bool

/-- FAR check and correction (lines 68-82): on excess the floor count is
recomputed by Python int() truncation of max_floor_area / building_area. -/
noncomputable def farStage (parcel_area legal_far building_area : ℝ)
    (target_floors : ℤ) : FarState :=
  let total_floor_area := building_area * (target_floors : ℝ)
  let far_ratio := total_floor_area / parcel_area * 100
  if far_ratio ≤ legal_far then
    ⟨target_floors, total_floor_area, far_ratio, decide (far_ratio ≤ legal_far)⟩
  else
    let max_floor_area := parcel_area * legal_far / 100
    let actual_floors := pytrunc (max_floor_area / building_area)
    let total2 := building_area * (actual_floors : ℝ)
    ⟨actual_floors, total2, total2 / parcel_area * 100, true⟩

/-- Box geometry emitted by _generate_geometry. -/
structure BoxGeometry where
  width : ℝ
  height : ℝ
  depth : ℝ
  posX : ℝ
  posY : ℝ
  posZ : ℝ
  latitude : Option ℝ
  longitude : Option ℝ

/-- Three.js box of _generate_geometry (lines 131-161): dimensions rounded
to 2 decimals, horizontal centre offset by the asymmetric setbacks,
vertical centre at height/2. -/
noncomputable def mkBoxGeometry (height w d : ℝ) (s : Setbacks) (l : LandCache) :
    BoxGeometry :=
  ⟨round2 w, round2 height, round2 d,
   (s.left - s.right) / 2, height / 2, (s.front - s.back) / 2,
   l.latitude, l.longitude⟩

/-- Internal (unrounded) solver result; the emitted dict applies rounding,
modelled by emitOutput. -/
structure MassSuccess where
  building_area : ℝ
  total_floor_area : ℝ
  coverage_ratio : ℝ
  far_ratio : ℝ
  floors : ℤ
  height : ℝ
  width : ℝ
  depth : ℝ
  coverage_ok : Bool
  far_ok : Bool
  height_ok : Bool
  setback_ok : Bool
  legal : Limits
  geometry : BoxGeometry

/-- Success path of MassCalculationService.calculate past the setback
guard: defaults, limit lookup, square-parcel dimensions, coverage and FAR
stages, height and the compliance flags. -/
noncomputable def massResultOf (l : LandCache) (target_floors : ℤ) (s : Setbacks) :
    MassSuccess :=
  let parcel_area := resolvedArea l
  let use_zone := resolvedZone l
  let limits := getBuildingLimits use_zone false
  let side_length := Real.sqrt parcel_area
  let buildable_width := side_length - s.left - s.right
  let buildable_depth := side_length - s.front - s.back
  let cs := coverageStage parcel_area limits.coverage buildable_width buildable_depth
  let fs := farStage parcel_area limits.far cs.area target_floors
  let height := (fs.floors : ℝ) * defaultFloorHeight
  let required := calcNorthSetback height use_zone
  { building_area := cs.area
    total_floor_area := fs.total
    coverage_ratio := cs.ratio
    far_ratio := fs.ratio
    floors := fs.floors
    height := height
    width := cs.width
    depth := cs.depth
    coverage_ok := cs.ok
    far_ok := fs.ok
    height_ok := heightOkCalc limits.height_limit fs.floors
    setback_ok := decide (required ≤ s.back)
    legal := limits
    geometry := mkBoxGeometry height cs.width cs.depth s l }

/-- Result of calculate: a failure code or a success record. -/
inductive CalcResult where
  | err (code : String)
  | ok (r : MassSuccess)

/-- MassCalculationService.calculate: the missing-record guard (line 26),
the setback guard (line 44) and the success path. -/
noncomputable def calculate (land : Option LandCache) (target_floors : ℤ)
    (s : Setbacks) : CalcResult :=
  match land with
  | none => .err "LAND_NOT_FOUND"
  | some l =>
    if Real.sqrt (resolvedArea l) - s.left - s.right ≤ 0 ∨
       Real.sqrt (resolvedArea l) - s.front - s.back ≤ 0 then
      .err "INVALID_SETBACKS"
    else .ok (massResultOf l target_floors s)

/-- Numeric fields of the returned dict: areas and ratios rounded to 2
decimal places, height to 1 (lines 109-116). -/
structure MassOutput where
  building_area : ℝ
  total_floor_area : ℝ
  coverage_ratio : ℝ
  far_ratio : ℝ
  floors : ℤ
  height : ℝ

/-- Rounding applied at the point of output only. -/
noncomputable def emitOutput (r : MassSuccess) : MassOutput :=
  ⟨round2 r.building_area, round2 r.total_floor_area, round2 r.coverage_ratio,
   round2 r.far_ratio, r.floors, round1 r.height⟩

/-- Geometry payload shapes get_cadastral may hand to the area helper
(GeoJSON-style coordinates nesting). -/
inductive GeomCoords where
  | multiPolygon (c : List (List (List (ℝ × ℝ))))
  | polygon (c : List (List (ℝ × ℝ)))
  | other (c : List (ℝ × ℝ))

/-- Ring extraction of _calculate_polygon_area (lines 465-472): the first
ring of the first polygon, or the raw coordinate list. -/
def outerRing : GeomCoords → List (ℝ × ℝ)
  | .multiPolygon c => (c.headD []).headD []
  | .polygon c => c.headD []
  | .other c => c

/-- Shoelace accumulation over projected points with wrap-around
indexing (lines 496-502). -/
noncomputable def shoelaceSum (pts : List (ℝ × ℝ)) : ℝ :=
  (List.range pts.length).foldl
    (fun acc i =>
      let p := pts.getD i (0, 0)
      let q := pts.getD ((i + 1) % pts.length) (0, 0)
      acc + p.1 * q.2 - q.1 * p.2) 0

/-- LambdaProxyService._calculate_polygon_area: equirectangular projection
about the mean latitude, then half the absolute shoelace sum; rings of
fewer than 3 vertices give 0. -/
noncomputable def polygonAreaM2 (g : GeomCoords) : ℝ :=
  let ring := outerRing g
  if ring.length < 3 then 0
  else
    let center_lat := (ring.map Prod.snd).sum / (ring.length : ℝ)
    let meters_per_lat : ℝ := 111320
    let meters_per_lng : ℝ := 111320 * Real.cos (center_lat * Real.pi / 180)
    let pts := ring.map (fun c => (c.1 * meters_per_lng, c.2 * meters_per_lat))
    |shoelaceSum pts| / 2

/-- Area reconciliation of get_cadastral (lines 593-597): the landChar
numeric area wins unless it is zero or absent, in which case an available
cadastral geometry is measured and rounded to 2 decimal places. -/
noncomputable def resolveCadastralArea (land_char_area : Option ℝ)
    (geometry : Option GeomCoords) : ℝ :=
  let area := land_char_area.getD 0
  if area = 0 then
    match geometry with
    | some g => round2 (polygonAreaM2 g)
    | none => area
  else area

/-- Digit filter of a jibun fragment (the join-filter-isdigit step of
_build_pnu), with the default "0" for an empty result. -/
def digitsOr0 (l : List Char) : List Char :=
  let ds := l.filter Char.isDigit
  if ds = [] then ['0'] else ds

/-- Python str.strip on a character list. -/
def trimWs (l : List Char) : List Char :=
  ((l.dropWhile Char.isWhitespace).reverse.dropWhile Char.isWhitespace).reverse

/-- Main-lot / sub-lot split of _build_pnu: the text before the first dash
and the text between the first and second dash, or the default "0" when
there is no dash. -/
def splitDash (l : List Char) : List Char × List Char :=
  if l.contains '-' then
    (l.takeWhile (fun c => c ≠ '-'),
     ((l.dropWhile (fun c => c ≠ '-')).drop 1).takeWhile (fun c => c ≠ '-'))
  else (l, ['0'])

/-- Mountain-marker removal, whitespace strip and dash split of
_build_pnu. -/
def jibunParts (jibun : List Char) : List Char × List Char :=
  splitDash (trimWs (jibun.filter (fun c => c ≠ '산')))

/-- Zero pad to 4 characters (str.zfill(4)). -/
def zfill4 (l : List Char) : List Char :=
  List.replicate (4 - l.length) '0' ++ l

/-- VWorldService._build_pnu (lines 1413-1440): 10-character legal-dong
code, plot-type flag, zero-padded main and sub lot digits. -/
def buildPnu (level4LC jibun : List Char) : List Char :=
  if level4LC = [] ∨ jibun = [] then []
  else
    let is_san := hasPrefixChars ['산'] jibun
    let parts := jibunParts jibun
    let bun := digitsOr0 parts.1
    let ji := digitsOr0 parts.2
    let plat_gb := if is_san then '1' else '0'
    level4LC ++ [plat_gb] ++ zfill4 bun ++ zfill4 ji

/-- Main-lot slice pnu[11:15] of DataGoKrService.get_building_info, with
the short-input default "0000". -/
def decodePnuBun (pnu : List Char) : List Char :=
  if 15 ≤ pnu.length then (pnu.drop 11).take 4 else "0000".data

/-- Sub-lot slice pnu[15:19] of get_building_info, with the short-input
default "0000". -/
def decodePnuJi (pnu : List Char) : List Char :=
  if 19 ≤ pnu.length then (pnu.drop 15).take 4 else "0000".data

/-- Two-argument arctangent in radians with the convention of
math.atan2: range (-pi, pi]. -/
noncomputable def atan2Rad (y x : ℝ) : ℝ :=
  if 0 < x then Real.arctan (y / x)
  else if x < 0 then
    (if 0 ≤ y then Real.arctan (y / x) + Real.pi else Real.arctan (y / x) - Real.pi)
  else if 0 < y then Real.pi / 2
  else if y < 0 then -(Real.pi / 2)
  else 0

/-- Radians-to-degrees conversion (math.degrees). -/
noncomputable def degreesOf (r : ℝ) : ℝ := r * 180 / Real.pi

/-- First normalization loop of the road-angle code (line 1095):
while road_angle > 90: road_angle -= 180. -/
noncomputable def normDown (a : ℝ) : ℝ :=
  if h : 90 < a then normDown (a - 180) else a
termination_by (⌈(a - 90) / 180⌉).toNat
decreasing_by
  have h1 : (a - 180 - 90) / 180 = (a - 90) / 180 - 1 := by ring
  have h2 : (0 : ℤ) < ⌈(a - 90) / 180⌉ :=
    Int.ceil_pos.mpr (div_pos (by linarith) (by norm_num))
  rw [h1, Int.ceil_sub_one]
  omega

/-- Second normalization loop of the road-angle code (line 1097):
while road_angle < -90: road_angle += 180. -/
noncomputable def normUp (a : ℝ) : ℝ :=
  if h : a < -90 then normUp (a + 180) else a
termination_by (⌈(-90 - a) / 180⌉).toNat
decreasing_by
  have h1 : (-90 - (a + 180)) / 180 = (-90 - a) / 180 - 1 := by ring
  have h2 : (0 : ℤ) < ⌈(-90 - a) / 180⌉ :=
    Int.ceil_pos.mpr (div_pos (by linarith) (by norm_num))
  rw [h1, Int.ceil_sub_one]
  omega

/-- Both normalization loops in sequence. -/
noncomputable def normalizeAngle (a : ℝ) : ℝ := normUp (normDown a)

/-- Road bearing of the Kakao fallback (lines 1088-1099): metric deltas by
the equirectangular projection at the parcel-centre latitude, atan2 in
degrees, then the normalization loops. -/
noncomputable def bearingAngle (p1 p2 : ℝ × ℝ) (ref_lat : ℝ) : ℝ :=
  let dx_m := (p2.1 - p1.1) * 111320 * Real.cos (ref_lat * Real.pi / 180)
  let dy_m := (p2.2 - p1.2) * 111320
  normalizeAngle (degreesOf (atan2Rad dy_m dx_m))

/-! Helper lemmas about the PNU encoder. -/

lemma zfill4_length (l : List Char) (h : l.length ≤ 4) : (zfill4 l).length = 4 := by
  simp only [zfill4, List.length_append, List.length_replicate]
  omega

lemma buildPnu_eq (code jibun : List Char) (hc : code ≠ []) (hj : jibun ≠ []) :
    buildPnu code jibun =
      code ++ [if hasPrefixChars ['산'] jibun then '1' else '0'] ++
        zfill4 (digitsOr0 (jibunParts jibun).1) ++
        zfill4 (digitsOr0 (jibunParts jibun).2) := by
  unfold buildPnu
  rw [if_neg (by simp [hc, hj])]

/-- C8: decoding the PNU produced by the encoder recovers the zero-padded
main and sub lot digits at the fixed offsets 11:15 and 15:19, the
plot-type flag at index 10 is 1 exactly when the jibun starts with the
mountain marker, the code is 19 characters long, and an absent sub lot
(no dash in the cleaned jibun) decodes as 0000. -/
theorem pnu_roundtrip (code jibun : List Char)
    (hc : code.length = 10) (hj : jibun ≠ [])
    (hb : (digitsOr0 (jibunParts jibun).1).length ≤ 4)
    (hs : (digitsOr0 (jibunParts jibun).2).length ≤ 4) :
    (buildPnu code jibun).length = 19 ∧
    decodePnuBun (buildPnu code jibun) = zfill4 (digitsOr0 (jibunParts jibun).1) ∧
    decodePnuJi (buildPnu code jibun) = zfill4 (digitsOr0 (jibunParts jibun).2) ∧
    (buildPnu code jibun).getD 10 ' ' =
      (if hasPrefixChars ['산'] jibun then '1' else '0') ∧
    (¬ (trimWs (jibun.filter (fun c => c ≠ '산'))).contains '-' →
      decodePnuJi (buildPnu code jibun) = "0000".data) := by
  have hcne : code ≠ [] := by
    intro h
    rw [h] at hc
    simp at hc
  have heq := buildPnu_eq code jibun hcne hj
  set flagc := (if hasPrefixChars ['산'] jibun then '1' else '0') with hflagdef
  set b4 := zfill4 (digitsOr0 (jibunParts jibun).1) with hb4def
  set j4 := zfill4 (digitsOr0 (jibunParts jibun).2) with hj4def
  have hb4 : b4.length = 4 := zfill4_length _ hb
  have hj4 : j4.length = 4 := zfill4_length _ hs
  have heq2 : buildPnu code jibun = (code ++ [flagc]) ++ (b4 ++ j4) := by
    rw [heq, List.append_assoc]
  have heqR : buildPnu code jibun = code ++ ([flagc] ++ (b4 ++ j4)) := by
    rw [heq2, List.append_assoc]
  have h11 : (code ++ [flagc]).length = 11 := by
    simp [hc]
  have heq3 : buildPnu code jibun = ((code ++ [flagc]) ++ b4) ++ j4 := heq
  have h15 : ((code ++ [flagc]) ++ b4).length = 15 := by
    simp [hc, hb4]
  have hlen : (buildPnu code jibun).length = 19 := by
    rw [heq3, List.length_append, h15, hj4]
  have hbun : decodePnuBun (buildPnu code jibun) = b4 := by
    rw [decodePnuBun, if_pos (by rw [hlen]; norm_num), heq2]
    rw [show (11 : ℕ) = (code ++ [flagc]).length from h11.symm, List.drop_left]
    rw [show (4 : ℕ) = b4.length from hb4.symm, List.take_left]
  have hji : decodePnuJi (buildPnu code jibun) = j4 := by
    rw [decodePnuJi, if_pos (by rw [hlen]), heq3]
    rw [show (15 : ℕ) = ((code ++ [flagc]) ++ b4).length from h15.symm, List.drop_left]
    rw [show (4 : ℕ) = j4.length from hj4.symm, List.take_length]
  refine ⟨hlen, hbun, hji, ?_, ?_⟩
  · rw [heqR]
    rw [List.getD_append_right code _ ' ' 10 (le_of_eq hc)]
    rw [hc]
    rfl
  · intro hnd
    have hp2 : (jibunParts jibun).2 = ['0'] := by
      rw [jibunParts, splitDash, if_neg hnd]
    have : j4 = "0000".data := by
      rw [hj4def, hp2]
      rfl
    rw [hji, this]

/-- C8 witness: a concrete mountain-lot jibun round-trips through the
encoder with flag 1 and zero-padded lot numbers. -/
theorem pnu_roundtrip_witness :
    decodePnuBun (buildPnu "1234567890".data "산50-11".data) = "0050".data ∧
    decodePnuJi (buildPnu "1234567890".data "산50-11".data) = "0011".data ∧
    (buildPnu "1234567890".data "산50-11".data).getD 10 ' ' = '1' := by
  obtain ⟨-, h1, h2, h3, -⟩ :=
    pnu_roundtrip "1234567890".data "산50-11".data (by decide) (by decide)
      (by decide) (by decide)
  exact ⟨h1.trans (by decide), h2.trans (by decide), h3.trans (by decide)⟩

/-- C4: the landChar numeric area is preferred; when it is zero or absent
and cadastral geometry is available, the area is the shoelace polygon area
rounded to 2 decimal places; a ring of fewer than 3 vertices measures 0. -/
theorem cadastral_area_rule (lca : Option ℝ) (g : GeomCoords) :
    (∀ a : ℝ, lca = some a → a ≠ 0 → resolveCadastralArea lca (some g) = a) ∧
    (lca.getD 0 = 0 → resolveCadastralArea lca (some g) = round2 (polygonAreaM2 g)) ∧
    ((outerRing g).length < 3 → polygonAreaM2 g = 0) := by
  refine ⟨?_, ?_, ?_⟩
  · intro a ha hne
    subst ha
    simp [resolveCadastralArea, hne]
  · intro h0
    simp [resolveCadastralArea, h0]
  · intro h3
    simp only [polygonAreaM2]
    rw [if_pos h3]

/-- C4 witness: concrete evaluations of the three reconciliation rules. -/
theorem cadastral_area_rule_witness :
    resolveCadastralArea (some 123.45) (some (.polygon [])) = 123.45 ∧
    resolveCadastralArea none (some (.polygon [[(0, 0), (1, 1)]])) =
      round2 (polygonAreaM2 (.polygon [[(0, 0), (1, 1)]])) ∧
    polygonAreaM2 (.polygon [[(0, 0), (1, 1)]]) = 0 := by
  obtain ⟨h1, -, -⟩ := cadastral_area_rule (some 123.45) (.polygon [])
  obtain ⟨-, h2, h3⟩ := cadastral_area_rule none (.polygon [[(0, 0), (1, 1)]])
  exact ⟨h1 123.45 rfl (by norm_num), h2 (by simp),
    h3 (by norm_num [outerRing])⟩

/-! Evaluation lemmas for the height-limit phrases of the zoning table. -/

lemma heightOk_four (floors : ℤ) :
    heightOkCalc (some "4층 이하") floors = decide (floors ≤ 4) := by
  show (if ("4층 이하" : String) = "" then true
    else if hasSub "4층".data "4층 이하".data then decide (floors ≤ 4)
    else if hasSub "3층".data "4층 이하".data then decide (floors ≤ 3)
    else true) = decide (floors ≤ 4)
  rw [if_neg (by decide), if_pos (by decide)]

lemma heightOk_three (floors : ℤ) :
    heightOkCalc (some "3층 이하") floors = decide (floors ≤ 3) := by
  show (if ("3층 이하" : String) = "" then true
    else if hasSub "4층".data "3층 이하".data then decide (floors ≤ 4)
    else if hasSub "3층".data "3층 이하".data then decide (floors ≤ 3)
    else true) = decide (floors ≤ 3)
  rw [if_neg (by decide), if_neg (by decide), if_pos (by decide)]

/-- C7: for every zone the solver can look up (settlement flag false, as
calculate passes it), a height-limit phrase parses to a leading-digit cap
and the height flag is true exactly when the floor count is at most that
cap; without a phrase the flag is true by default. -/
lemma round2_eq_self_of_int (x : ℝ) (n : ℤ) (h : x = n) : round2 x = x := by
  subst h
  unfold round2
  rw [show ((n : ℝ) * 100) = ((100 * n : ℤ) : ℝ) by push_cast; ring, round_intCast]
  push_cast
  field_simp

/-- Facts read off the zoning table for every possible lookup with the
settlement flag false (as calculate passes it): coverage is positive,
coverage never exceeds FAR, coverage is an integer percentage fixed by
2-decimal rounding, and the height-limit phrase is one of the two cap
phrases or absent. -/
lemma limits_facts (z : String) :
    0 < (getBuildingLimits z false).coverage ∧
    (getBuildingLimits z false).coverage ≤ (getBuildingLimits z false).far ∧
    round2 ((getBuildingLimits z false).coverage) = (getBuildingLimits z false).coverage ∧
    ((getBuildingLimits z false).height_limit = none ∨
     (getBuildingLimits z false).height_limit = some "4층 이하" ∨
     (getBuildingLimits z false).height_limit = some "3층 이하") := by
  unfold getBuildingLimits
  rw [if_neg (by simp)]
  by_cases h1 : z = "제1종전용주거지역"
  · rw [if_pos h1]
    exact ⟨by norm_num, by norm_num, round2_eq_self_of_int _ 40 (by norm_num), Or.inl rfl⟩
  rw [if_neg h1]
  by_cases h2 : z = "제2종전용주거지역"
  · rw [if_pos h2]
    exact ⟨by norm_num, by norm_num, round2_eq_self_of_int _ 40 (by norm_num), Or.inl rfl⟩
  rw [if_neg h2]
  by_cases h3 : z = "제1종일반주거지역"
  · rw [if_pos h3]
    exact ⟨by norm_num, by norm_num, round2_eq_self_of_int _ 60 (by norm_num), Or.inl rfl⟩
  rw [if_neg h3]
  by_cases h4 : z = "제2종일반주거지역"
  · rw [if_pos h4]
    exact ⟨by norm_num, by norm_num, round2_eq_self_of_int _ 60 (by norm_num), Or.inl rfl⟩
  rw [if_neg h4]
  by_cases h5 : z = "제3종일반주거지역"
  · rw [if_pos h5]
    exact ⟨by norm_num, by norm_num, round2_eq_self_of_int _ 50 (by norm_num), Or.inl rfl⟩
  rw [if_neg h5]
  by_cases h6 : z = "준주거지역"
  · rw [if_pos h6]
    exact ⟨by norm_num, by norm_num, round2_eq_self_of_int _ 60 (by norm_num), Or.inl rfl⟩
  rw [if_neg h6]
  by_cases h7 : z = "중심상업지역"
  · rw [if_pos h7]
    exact ⟨by norm_num, by norm_num, round2_eq_self_of_int _ 80 (by norm_num), Or.inl rfl⟩
  rw [if_neg h7]
  by_cases h8 : z = "일반상업지역"
  · rw [if_pos h8]
    exact ⟨by norm_num, by norm_num, round2_eq_self_of_int _ 80 (by norm_num), Or.inl rfl⟩
  rw [if_neg h8]
  by_cases h9 : z = "근린상업지역"
  · rw [if_pos h9]
    exact ⟨by norm_num, by norm_num, round2_eq_self_of_int _ 60 (by norm_num), Or.inl rfl⟩
  rw [if_neg h9]
  by_cases h10 : z = "준공업지역"
  · rw [if_pos h10]
    exact ⟨by norm_num, by norm_num, round2_eq_self_of_int _ 60 (by norm_num), Or.inl rfl⟩
  rw [if_neg h10]
  by_cases h11 : z = "자연녹지지역"
  · rw [if_pos h11]
    exact ⟨by norm_num, by norm_num, round2_eq_self_of_int _ 20 (by norm_num),
      Or.inr (Or.inl rfl)⟩
  rw [if_neg h11]
  by_cases h12 : z = "계획관리지역"
  · rw [if_pos h12]
    exact ⟨by norm_num, by norm_num, round2_eq_self_of_int _ 40 (by norm_num),
      Or.inr (Or.inl rfl)⟩
  rw [if_neg h12]
  by_cases h13 : z = "생산관리지역"
  · rw [if_pos h13]
    exact ⟨by norm_num, by norm_num, round2_eq_self_of_int _ 20 (by norm_num),
      Or.inr (Or.inr rfl)⟩
  rw [if_neg h13]
  by_cases h14 : z = "보전관리지역"
  · rw [if_pos h14]
    exact ⟨by norm_num, by norm_num, round2_eq_self_of_int _ 20 (by norm_num),
      Or.inr (Or.inr rfl)⟩
  rw [if_neg h14]
  by_cases h15 : z = "농림지역"
  · rw [if_pos h15]
    exact ⟨by norm_num, by norm_num, round2_eq_self_of_int _ 20 (by norm_num),
      Or.inr (Or.inr rfl)⟩
  rw [if_neg h15]
  exact ⟨by norm_num, by norm_num, round2_eq_self_of_int _ 20 (by norm_num), Or.inl rfl⟩

theorem height_cap_parse (z : String) (floors : ℤ) :
    ((getBuildingLimits z false).height_limit = none →
      heightOkCalc (getBuildingLimits z false).height_limit floors = true) ∧
    (∀ s, (getBuildingLimits z false).height_limit = some s →
      ∃ c : ℕ, parseCap s = some c ∧
        heightOkCalc (getBuildingLimits z false).height_limit floors =
          decide (floors ≤ (c : ℤ))) := by
  obtain hnone | h4 | h3 := (limits_facts z).2.2.2
  · refine ⟨fun _ => by rw [hnone]; rfl, fun s hs => ?_⟩
    rw [hnone] at hs
    cases hs
  · refine ⟨fun h => absurd (h4.symm.trans h) (by simp), fun s hs => ?_⟩
    rw [h4] at hs
    cases hs
    exact ⟨4, by decide, by rw [h4]; simpa using heightOk_four floors⟩
  · refine ⟨fun h => absurd (h3.symm.trans h) (by simp), fun s hs => ?_⟩
    rw [h3] at hs
    cases hs
    exact ⟨3, by decide, by rw [h3]; simpa using heightOk_three floors⟩

/-- C7 witness: the agricultural zone carries the 3-floor cap phrase and
the flag flips exactly at the cap. -/
theorem height_cap_parse_witness :
    (getBuildingLimits "농림지역" false).height_limit = some "3층 이하" ∧
    parseCap "3층 이하" = some 3 ∧
    heightOkCalc (getBuildingLimits "농림지역" false).height_limit 3 = true ∧
    heightOkCalc (getBuildingLimits "농림지역" false).height_limit 4 = false := by
  obtain ⟨-, h3⟩ := height_cap_parse "농림지역" (3 : ℤ)
  obtain ⟨-, h4⟩ := height_cap_parse "농림지역" (4 : ℤ)
  obtain ⟨c3, hc3, he3⟩ := h3 "3층 이하" (by decide)
  obtain ⟨c4, hc4, he4⟩ := h4 "3층 이하" (by decide)
  have hcap3 : c3 = 3 := by
    have : some c3 = some 3 := hc3.symm.trans (by decide)
    simpa using this
  have hcap4 : c4 = 3 := by
    have : some c4 = some 3 := hc4.symm.trans (by decide)
    simpa using this
  subst hcap3
  subst hcap4
  refine ⟨by decide, by decide, ?_, ?_⟩
  · rw [he3]
    decide
  · rw [he4]
    decide

/-! Lemmas about the road-angle normalization loops. -/

lemma normDown_le_aux :
    ∀ (n : ℕ) (a : ℝ), (⌈(a - 90) / 180⌉).toNat ≤ n → normDown a ≤ 90 := by
  intro n
  induction n with
  | zero =>
    intro a h
    rw [normDown]
    split_ifs with hgt
    · exfalso
      have hpos : 0 < ⌈(a - 90) / 180⌉ :=
        Int.ceil_pos.mpr (div_pos (by linarith) (by norm_num))
      omega
    · linarith [not_lt.mp hgt]
  | succ n ih =>
    intro a h
    rw [normDown]
    split_ifs with hgt
    · apply ih
      have hstep : ⌈(a - 180 - 90) / 180⌉ = ⌈(a - 90) / 180⌉ - 1 := by
        rw [show (a - 180 - 90) / 180 = (a - 90) / 180 - 1 by ring, Int.ceil_sub_one]
      have hpos : 0 < ⌈(a - 90) / 180⌉ :=
        Int.ceil_pos.mpr (div_pos (by linarith) (by norm_num))
      omega
    · linarith [not_lt.mp hgt]

lemma normDown_le (a : ℝ) : normDown a ≤ 90 := normDown_le_aux _ a le_rfl

lemma normDown_eq_self (a : ℝ) (h : a ≤ 90) : normDown a = a := by
  rw [normDown]
  exact dif_neg (not_lt.mpr h)

lemma normUp_ge_aux :
    ∀ (n : ℕ) (a : ℝ), (⌈(-90 - a) / 180⌉).toNat ≤ n → -90 ≤ normUp a := by
  intro n
  induction n with
  | zero =>
    intro a h
    rw [normUp]
    split_ifs with hlt
    · exfalso
      have hpos : 0 < ⌈(-90 - a) / 180⌉ :=
        Int.ceil_pos.mpr (div_pos (by linarith) (by norm_num))
      omega
    · linarith [not_lt.mp hlt]
  | succ n ih =>
    intro a h
    rw [normUp]
    split_ifs with hlt
    · apply ih
      have hstep : ⌈(-90 - (a + 180)) / 180⌉ = ⌈(-90 - a) / 180⌉ - 1 := by
        rw [show (-90 - (a + 180)) / 180 = (-90 - a) / 180 - 1 by ring, Int.ceil_sub_one]
      have hpos : 0 < ⌈(-90 - a) / 180⌉ :=
        Int.ceil_pos.mpr (div_pos (by linarith) (by norm_num))
      omega
    · linarith [not_lt.mp hlt]

lemma normUp_ge (a : ℝ) : -90 ≤ normUp a := normUp_ge_aux _ a le_rfl

lemma normUp_le_aux :
    ∀ (n : ℕ) (a : ℝ), (⌈(-90 - a) / 180⌉).toNat ≤ n → a ≤ 90 → normUp a ≤ 90 := by
  intro n
  induction n with
  | zero =>
    intro a h ha
    rw [normUp]
    split_ifs with hlt
    · exfalso
      have hpos : 0 < ⌈(-90 - a) / 180⌉ :=
        Int.ceil_pos.mpr (div_pos (by linarith) (by norm_num))
      omega
    · exact ha
  | succ n ih =>
    intro a h ha
    rw [normUp]
    split_ifs with hlt
    · apply ih
      · have hstep : ⌈(-90 - (a + 180)) / 180⌉ = ⌈(-90 - a) / 180⌉ - 1 := by
          rw [show (-90 - (a + 180)) / 180 = (-90 - a) / 180 - 1 by ring, Int.ceil_sub_one]
        have hpos : 0 < ⌈(-90 - a) / 180⌉ :=
          Int.ceil_pos.mpr (div_pos (by linarith) (by norm_num))
        omega
      · linarith
    · exact ha

lemma normUp_le (a : ℝ) (h : a ≤ 90) : normUp a ≤ 90 := normUp_le_aux _ a le_rfl h

lemma normUp_eq_self (a : ℝ) (h : -90 ≤ a) : normUp a = a := by
  rw [normUp]
  exact dif_neg (not_lt.mpr h)

/-- C9 (amended): the normalization loops terminate (they are total
functions) and bound every road bearing into the closed interval from -90
to 90 degrees; the boundary value -90 is attainable and left in place. -/
theorem bearing_angle_range (p1 p2 : ℝ × ℝ) (ref_lat : ℝ) :
    -90 ≤ bearingAngle p1 p2 ref_lat ∧ bearingAngle p1 p2 ref_lat ≤ 90 := by
  simp only [bearingAngle, normalizeAngle]
  exact ⟨normUp_ge _, normUp_le _ (normDown_le _)⟩

/-- C9 counterexample: for a point pair due south the metric deltas give
atan2 exactly -90 degrees, and the normalization loops return -90
unchanged instead of mapping it to 90. -/
theorem bearing_angle_at_neg_ninety :
    bearingAngle (0, 1) (0, 0) 0 = -90 ∧ ¬ (-90 < bearingAngle (0, 1) (0, 0) 0) := by
  have h1 : atan2Rad (-111320 : ℝ) 0 = -(Real.pi / 2) := by
    unfold atan2Rad
    rw [if_neg (by norm_num), if_neg (by norm_num), if_neg (by norm_num),
      if_pos (by norm_num)]
  have h2 : degreesOf (-(Real.pi / 2)) = -90 := by
    unfold degreesOf
    field_simp
    ring
  have hmain : bearingAngle (0, 1) (0, 0) 0 = -90 := by
    simp only [bearingAngle, normalizeAngle]
    norm_num
    rw [h1, h2, normDown_eq_self _ (by norm_num), normUp_eq_self _ (by norm_num)]
  exact ⟨hmain, by rw [hmain]; norm_num⟩

/-! Helper lemmas about the solver stages. -/

lemma coverageStage_le (pa cov w d : ℝ) (h : w * d / pa * 100 ≤ cov) :
    (coverageStage pa cov w d).area = w * d ∧
    (coverageStage pa cov w d).ratio = w * d / pa * 100 ∧
    (coverageStage pa cov w d).width = w ∧
    (coverageStage pa cov w d).depth = d ∧
    (coverageStage pa cov w d).ok = true := by
  simp only [coverageStage]
  rw [if_pos h]
  exact ⟨rfl, rfl, rfl, rfl, decide_eq_true h⟩

lemma coverageStage_gt (pa cov w d : ℝ) (hpa : 0 < pa) (hw : 0 < w) (hd : 0 < d)
    (hcov : 0 ≤ cov) (h : cov < w * d / pa * 100) :
    (coverageStage pa cov w d).area = pa * cov / 100 ∧
    (coverageStage pa cov w d).ratio = cov ∧
    (coverageStage pa cov w d).width = w * Real.sqrt (pa * cov / 100 / (w * d)) ∧
    (coverageStage pa cov w d).depth = d * Real.sqrt (pa * cov / 100 / (w * d)) ∧
    (coverageStage pa cov w d).ok = true := by
  have hn : ¬ (w * d / pa * 100 ≤ cov) := not_le.mpr h
  have hwd : 0 < w * d := mul_pos hw hd
  simp only [coverageStage]
  rw [if_neg hn]
  refine ⟨?_, rfl, rfl, rfl, rfl⟩
  have harg : 0 ≤ pa * cov / 100 / (w * d) := by positivity
  have hss : Real.sqrt (pa * cov / 100 / (w * d)) * Real.sqrt (pa * cov / 100 / (w * d)) =
      pa * cov / 100 / (w * d) := Real.mul_self_sqrt harg
  calc w * Real.sqrt (pa * cov / 100 / (w * d)) * (d * Real.sqrt (pa * cov / 100 / (w * d)))
      = (w * d) * (Real.sqrt (pa * cov / 100 / (w * d)) *
        Real.sqrt (pa * cov / 100 / (w * d))) := by ring
    _ = (w * d) * (pa * cov / 100 / (w * d)) := by rw [hss]
    _ = pa * cov / 100 := by
        rw [mul_comm, div_mul_cancel₀ _ hwd.ne']

lemma farStage_le (pa far A : ℝ) (t : ℤ) (h : A * (t : ℝ) / pa * 100 ≤ far) :
    (farStage pa far A t).floors = t ∧
    (farStage pa far A t).total = A * (t : ℝ) ∧
    (farStage pa far A t).ratio = A * (t : ℝ) / pa * 100 ∧
    (farStage pa far A t).ok = true := by
  simp only [farStage]
  rw [if_pos h]
  exact ⟨rfl, rfl, rfl, decide_eq_true h⟩

lemma farStage_gt (pa far A : ℝ) (t : ℤ) (hnn : 0 ≤ pa * far / 100 / A)
    (h : ¬ (A * (t : ℝ) / pa * 100 ≤ far)) :
    (farStage pa far A t).floors = ⌊pa * far / 100 / A⌋ ∧
    (farStage pa far A t).total = A * ((⌊pa * far / 100 / A⌋ : ℤ) : ℝ) ∧
    (farStage pa far A t).ratio = A * ((⌊pa * far / 100 / A⌋ : ℤ) : ℝ) / pa * 100 ∧
    (farStage pa far A t).ok = true := by
  simp only [farStage]
  rw [if_neg h]
  simp only [pytrunc]
  rw [if_pos hnn]
  exact ⟨rfl, rfl, rfl, trivial⟩

lemma calculate_ok (l : LandCache) (t : ℤ) (s : Setbacks)
    (hw : 0 < Real.sqrt (resolvedArea l) - s.left - s.right)
    (hd : 0 < Real.sqrt (resolvedArea l) - s.front - s.back) :
    calculate (some l) t s = .ok (massResultOf l t s) := by
  have hg : ¬ (Real.sqrt (resolvedArea l) - s.left - s.right ≤ 0 ∨
      Real.sqrt (resolvedArea l) - s.front - s.back ≤ 0) := by
    push_neg
    exact ⟨hw, hd⟩
  simp only [calculate]
  rw [if_neg hg]

/-- C6: collapsed buildable dimensions abort the solver with the
INVALID_SETBACKS failure, which carries no solver outputs. -/
theorem invalid_setbacks_error (l : LandCache) (t : ℤ) (s : Setbacks)
    (h : Real.sqrt (resolvedArea l) - s.left - s.right ≤ 0 ∨
         Real.sqrt (resolvedArea l) - s.front - s.back ≤ 0) :
    calculate (some l) t s = .err "INVALID_SETBACKS" := by
  simp only [calculate]
  rw [if_pos h]

/-- C6 witness: a 400 square-metre parcel with 10 m left and right setbacks
has zero buildable width and the solver errors out. -/
theorem invalid_setbacks_error_witness :
    calculate (some ⟨some 400, some "제2종일반주거지역", none, none⟩) 3 ⟨0, 0, 10, 10⟩ =
      .err "INVALID_SETBACKS" := by
  apply invalid_setbacks_error
  left
  have ha : resolvedArea ⟨some 400, some "제2종일반주거지역", none, none⟩ = 400 := by
    norm_num [resolvedArea]
  rw [ha, show (400 : ℝ) = 20 ^ 2 by norm_num,
    Real.sqrt_sq (by norm_num : (0 : ℝ) ≤ 20)]
  norm_num

lemma calculate_congr (l l2 : LandCache) (t : ℤ) (s : Setbacks)
    (h1 : resolvedArea l = resolvedArea l2) (h2 : resolvedZone l = resolvedZone l2)
    (h3 : l.latitude = l2.latitude) (h4 : l.longitude = l2.longitude) :
    calculate (some l) t s = calculate (some l2) t s := by
  simp only [calculate, massResultOf, mkBoxGeometry]
  rw [h1, h2, h3, h4]

lemma resolvedArea_ne_zero (l : LandCache) : resolvedArea l ≠ 0 := by
  obtain ⟨pa, uz, lat, lng⟩ := l
  cases pa with
  | none =>
    show (500 : ℝ) ≠ 0
    norm_num
  | some a =>
    show (if a = 0 then (500 : ℝ) else a) ≠ 0
    by_cases h : a = 0
    · rw [if_pos h]
      norm_num
    · rw [if_neg h]
      exact h

lemma resolvedZone_ne_empty (l : LandCache) : resolvedZone l ≠ "" := by
  obtain ⟨pa, uz, lat, lng⟩ := l
  cases uz with
  | none =>
    show ("제2종일반주거지역" : String) ≠ ""
    decide
  | some z =>
    show (if z = "" then ("제2종일반주거지역" : String) else z) ≠ ""
    by_cases h : z = ""
    · rw [if_pos h]
      decide
    · rw [if_neg h]
      exact h

/-- C5 (amended): the solver fails with the LAND_NOT_FOUND kind exactly
when no cached record exists: absent a record that is the result, and
with any present record no error other than INVALID_SETBACKS can come
back.  Every unresolved form of a present record is defaulted: a None or
zero parcel area resolves to 500.0, a None or empty use-zone resolves to
the second-class general residential zone, and the solver behaves on any
record exactly as if the resolved values were stored. -/
theorem missing_record_vs_defaults (t : ℤ) (s : Setbacks) (l : LandCache) :
    calculate none t s = .err "LAND_NOT_FOUND" ∧
    (∀ code, calculate (some l) t s = .err code → code = "INVALID_SETBACKS") ∧
    (l.parcel_area = none ∨ l.parcel_area = some 0 → resolvedArea l = 500) ∧
    (l.use_zone = none ∨ l.use_zone = some "" →
      resolvedZone l = "제2종일반주거지역") ∧
    calculate (some l) t s =
      calculate (some ⟨some (resolvedArea l), some (resolvedZone l),
        l.latitude, l.longitude⟩) t s := by
  obtain ⟨pa, uz, lat, lng⟩ := l
  refine ⟨rfl, ?_, ?_, ?_, ?_⟩
  · intro code h
    simp only [calculate] at h
    by_cases hg : Real.sqrt (resolvedArea ⟨pa, uz, lat, lng⟩) - s.left - s.right ≤ 0 ∨
        Real.sqrt (resolvedArea ⟨pa, uz, lat, lng⟩) - s.front - s.back ≤ 0
    · rw [if_pos hg] at h
      injection h with h2
      exact h2.symm
    · rw [if_neg hg] at h
      cases h
  · rintro (h | h) <;> subst h
    · rfl
    · show (if (0 : ℝ) = 0 then (500 : ℝ) else 0) = 500
      rw [if_pos rfl]
  · rintro (h | h) <;> subst h
    · rfl
    · show (if ("" : String) = "" then ("제2종일반주거지역" : String)
          else "") = "제2종일반주거지역"
      rw [if_pos rfl]
  · apply calculate_congr
    · show resolvedArea ⟨pa, uz, lat, lng⟩ =
        if resolvedArea ⟨pa, uz, lat, lng⟩ = 0 then 500 else resolvedArea ⟨pa, uz, lat, lng⟩
      rw [if_neg (resolvedArea_ne_zero ⟨pa, uz, lat, lng⟩)]
    · show resolvedZone ⟨pa, uz, lat, lng⟩ =
        if resolvedZone ⟨pa, uz, lat, lng⟩ = "" then "제2종일반주거지역"
        else resolvedZone ⟨pa, uz, lat, lng⟩
      rw [if_neg (resolvedZone_ne_empty ⟨pa, uz, lat, lng⟩)]
    · rfl
    · rfl

lemma calc_default_ok :
    calculate (some ⟨none, none, none, none⟩) 1 ⟨0, 0, 0, 0⟩ =
      .ok (massResultOf ⟨none, none, none, none⟩ 1 ⟨0, 0, 0, 0⟩) := by
  apply calculate_ok
  · simp [resolvedArea]
  · simp [resolvedArea]

/-- C5 counterexample: invoked on a cached record whose area and use-zone
are both unresolved, the solver does not fail with any error kind: it
returns a success result. -/
theorem unresolved_fields_still_succeed :
    ∃ r : MassSuccess,
      calculate (some ⟨none, none, none, none⟩) 1 ⟨0, 0, 0, 0⟩ = .ok r :=
  ⟨_, calc_default_ok⟩

/-! Bounds on the corrected footprint and the corrected floor count. -/

lemma coverageStage_area_bounds (pa cov w d : ℝ) (hpa : 0 < pa) (hw : 0 < w)
    (hd : 0 < d) (hcov : 0 < cov) :
    0 < (coverageStage pa cov w d).area ∧
    (coverageStage pa cov w d).area ≤ pa * cov / 100 := by
  by_cases h : w * d / pa * 100 ≤ cov
  · obtain ⟨ha, -, -, -, -⟩ := coverageStage_le pa cov w d h
    rw [ha]
    refine ⟨mul_pos hw hd, ?_⟩
    rw [div_mul_eq_mul_div, div_le_iff₀ hpa] at h
    linarith
  · obtain ⟨ha, -, -, -, -⟩ := coverageStage_gt pa cov w d hpa hw hd hcov.le (not_le.mp h)
    rw [ha]
    exact ⟨by positivity, le_refl _⟩

lemma farStage_floors_ge_one (pa far A : ℝ) (t : ℤ) (hA : 0 < A)
    (hAle : A ≤ pa * far / 100) (ht : 1 ≤ t) :
    1 ≤ (farStage pa far A t).floors := by
  by_cases h : A * (t : ℝ) / pa * 100 ≤ far
  · obtain ⟨hf, -, -, -⟩ := farStage_le pa far A t h
    rw [hf]
    exact ht
  · have hnn : 0 ≤ pa * far / 100 / A := by
      have h0 : 0 ≤ pa * far / 100 := le_trans hA.le hAle
      positivity
    obtain ⟨hf, -, -, -⟩ := farStage_gt pa far A t hnn h
    rw [hf, Int.le_floor]
    push_cast
    rw [le_div_iff₀ hA]
    linarith

lemma floors_pos_of_ok (l : LandCache) (t : ℤ) (s : Setbacks) (r : MassSuccess)
    (hpa : 0 < resolvedArea l) (ht : 1 ≤ t)
    (hok : calculate (some l) t s = .ok r) : 1 ≤ r.floors := by
  by_cases hg : Real.sqrt (resolvedArea l) - s.left - s.right ≤ 0 ∨
      Real.sqrt (resolvedArea l) - s.front - s.back ≤ 0
  · simp only [calculate] at hok
    rw [if_pos hg] at hok
    cases hok
  · push_neg at hg
    obtain ⟨hw, hd⟩ := hg
    rw [calculate_ok l t s hw hd] at hok
    injection hok with h
    subst h
    simp only [massResultOf]
    obtain ⟨hcovpos, hcf, -, -⟩ := limits_facts (resolvedZone l)
    obtain ⟨hApos, hAle⟩ := coverageStage_area_bounds (resolvedArea l)
      (getBuildingLimits (resolvedZone l) false).coverage
      (Real.sqrt (resolvedArea l) - s.left - s.right)
      (Real.sqrt (resolvedArea l) - s.front - s.back) hpa hw hd hcovpos
    apply farStage_floors_ge_one _ _ _ _ hApos _ ht
    refine le_trans hAle ?_
    gcongr

/-- C10 (amended): the floor-count invariant is preserved, not violated:
because every zone's legal FAR is at least its legal coverage, the
coverage-corrected footprint never exceeds the legal maximum total floor
area, so the FAR truncation always leaves at least one floor; a successful
result with zero floors is unreachable. -/
theorem final_floors_at_least_one (l : LandCache) (t : ℤ) (s : Setbacks)
    (r : MassSuccess) (hpa : 0 < resolvedArea l) (ht : 1 ≤ t)
    (hok : calculate (some l) t s = .ok r) : 1 ≤ r.floors :=
  floors_pos_of_ok l t s r hpa ht hok

/-- C10 counterexample: there is no valid solver input with target at
least 1 on which the solver succeeds with a zero floor count. -/
theorem no_zero_floor_success :
    ¬ ∃ (l : LandCache) (t : ℤ) (s : Setbacks) (r : MassSuccess),
        0 < resolvedArea l ∧ 1 ≤ t ∧ calculate (some l) t s = .ok r ∧
        r.floors = 0 := by
  rintro ⟨l, t, s, r, hpa, ht, hok, hz⟩
  have h1 := floors_pos_of_ok l t s r hpa ht hok
  omega

/-- C10 witness: the default parcel with zero setbacks and one target
floor succeeds and keeps a positive floor count. -/
theorem final_floors_at_least_one_witness :
    ∃ r : MassSuccess,
      calculate (some ⟨none, none, none, none⟩) 1 ⟨0, 0, 0, 0⟩ = .ok r ∧
      1 ≤ r.floors := by
  refine ⟨_, calc_default_ok, ?_⟩
  exact final_floors_at_least_one _ 1 _ _ (by norm_num [resolvedArea]) le_rfl
    calc_default_ok

/-! Evaluation lemmas for the second-class general residential zone used by
the concrete scenarios. -/

lemma resolvedZone_z2 (pa lat lng : Option ℝ) :
    resolvedZone ⟨pa, some "제2종일반주거지역", lat, lng⟩ = "제2종일반주거지역" := by
  simp only [resolvedZone]
  rw [if_neg (by decide)]

lemma limits_z2 :
    getBuildingLimits "제2종일반주거지역" false = ⟨60, 250, none, none⟩ := by
  unfold getBuildingLimits
  rw [if_neg (by simp), if_neg (by decide), if_neg (by decide), if_neg (by decide),
    if_pos rfl]

/-- C3: when the naive coverage ratio and the naive FAR are both within
the legal limits, neither correction step runs: the footprint stays the
naive buildable width times depth and the floor count stays the requested
target, internally and in the emitted output. -/
theorem compliant_input_unchanged (l : LandCache) (t : ℤ) (s : Setbacks)
    (hw : 0 < Real.sqrt (resolvedArea l) - s.left - s.right)
    (hd : 0 < Real.sqrt (resolvedArea l) - s.front - s.back)
    (hcov : (Real.sqrt (resolvedArea l) - s.left - s.right) *
        (Real.sqrt (resolvedArea l) - s.front - s.back) / resolvedArea l * 100 ≤
      (getBuildingLimits (resolvedZone l) false).coverage)
    (hfar : (Real.sqrt (resolvedArea l) - s.left - s.right) *
        (Real.sqrt (resolvedArea l) - s.front - s.back) * (t : ℝ) /
        resolvedArea l * 100 ≤ (getBuildingLimits (resolvedZone l) false).far) :
    ∃ r : MassSuccess, calculate (some l) t s = .ok r ∧
      r.building_area = (Real.sqrt (resolvedArea l) - s.left - s.right) *
        (Real.sqrt (resolvedArea l) - s.front - s.back) ∧
      r.floors = t ∧
      (emitOutput r).building_area = round2 ((Real.sqrt (resolvedArea l) - s.left - s.right) *
        (Real.sqrt (resolvedArea l) - s.front - s.back)) ∧
      (emitOutput r).floors = t := by
  obtain ⟨hA, -, -, -, -⟩ := coverageStage_le (resolvedArea l)
    (getBuildingLimits (resolvedZone l) false).coverage
    (Real.sqrt (resolvedArea l) - s.left - s.right)
    (Real.sqrt (resolvedArea l) - s.front - s.back) hcov
  have hfl : (massResultOf l t s).floors = t := by
    simp only [massResultOf]
    rw [hA]
    exact (farStage_le _ _ _ t hfar).1
  have hba : (massResultOf l t s).building_area =
      (Real.sqrt (resolvedArea l) - s.left - s.right) *
      (Real.sqrt (resolvedArea l) - s.front - s.back) := by
    simp only [massResultOf]
    exact hA
  refine ⟨massResultOf l t s, calculate_ok l t s hw hd, hba, hfl, ?_, ?_⟩
  · simp only [emitOutput]
    rw [hba]
  · simp only [emitOutput]
    exact hfl

/-- C3 witness: a 400 square-metre parcel with uniform 5 m setbacks and
3 target floors is compliant as given, and the solver leaves footprint 100
and 3 floors untouched. -/
theorem compliant_input_unchanged_witness :
    ∃ r : MassSuccess,
      calculate (some ⟨some 400, some "제2종일반주거지역", none, none⟩) 3 ⟨5, 5, 5, 5⟩ =
        .ok r ∧ r.building_area = 100 ∧ r.floors = 3 := by
  have hra : resolvedArea ⟨some 400, some "제2종일반주거지역", none, none⟩ = 400 := by
    norm_num [resolvedArea]
  have hsq : Real.sqrt (400 : ℝ) = 20 := by
    rw [show (400 : ℝ) = 20 ^ 2 by norm_num, Real.sqrt_sq (by norm_num : (0 : ℝ) ≤ 20)]
  obtain ⟨r, hok, hba, hfl, -, -⟩ :=
    compliant_input_unchanged ⟨some 400, some "제2종일반주거지역", none, none⟩ 3 ⟨5, 5, 5, 5⟩
      (by rw [show ((⟨5, 5, 5, 5⟩ : Setbacks)).left = 5 from rfl,
            show ((⟨5, 5, 5, 5⟩ : Setbacks)).right = 5 from rfl, hra, hsq]
          norm_num)
      (by rw [show ((⟨5, 5, 5, 5⟩ : Setbacks)).front = 5 from rfl,
            show ((⟨5, 5, 5, 5⟩ : Setbacks)).back = 5 from rfl, hra, hsq]
          norm_num)
      (by rw [resolvedZone_z2, limits_z2, hra, hsq]
          show (20 - 5 - 5 : ℝ) * (20 - 5 - 5) / 400 * 100 ≤ 60
          norm_num)
      (by rw [resolvedZone_z2, limits_z2, hra, hsq]
          show (20 - 5 - 5 : ℝ) * (20 - 5 - 5) * ((3 : ℤ) : ℝ) / 400 * 100 ≤ 250
          norm_num)
  refine ⟨r, hok, ?_, hfl⟩
  rw [hba, hra, hsq]
  norm_num

/-- C1: when the naive footprint exceeds the legal coverage, width and
depth are both scaled by sqrt(max_building_area / building_area), the
corrected footprint equals parcel_area times legal coverage over 100
exactly, the coverage ratio (internal and as emitted) equals the legal
limit exactly, and the coverage flag is set. -/
theorem coverage_correction_exact (l : LandCache) (t : ℤ) (s : Setbacks)
    (hpa : 0 < resolvedArea l)
    (hw : 0 < Real.sqrt (resolvedArea l) - s.left - s.right)
    (hd : 0 < Real.sqrt (resolvedArea l) - s.front - s.back)
    (hcov : (getBuildingLimits (resolvedZone l) false).coverage <
      (Real.sqrt (resolvedArea l) - s.left - s.right) *
        (Real.sqrt (resolvedArea l) - s.front - s.back) / resolvedArea l * 100) :
    ∃ r : MassSuccess, calculate (some l) t s = .ok r ∧
      r.building_area =
        resolvedArea l * (getBuildingLimits (resolvedZone l) false).coverage / 100 ∧
      r.width = (Real.sqrt (resolvedArea l) - s.left - s.right) *
        Real.sqrt (resolvedArea l * (getBuildingLimits (resolvedZone l) false).coverage /
          100 / ((Real.sqrt (resolvedArea l) - s.left - s.right) *
            (Real.sqrt (resolvedArea l) - s.front - s.back))) ∧
      r.depth = (Real.sqrt (resolvedArea l) - s.front - s.back) *
        Real.sqrt (resolvedArea l * (getBuildingLimits (resolvedZone l) false).coverage /
          100 / ((Real.sqrt (resolvedArea l) - s.left - s.right) *
            (Real.sqrt (resolvedArea l) - s.front - s.back))) ∧
      r.coverage_ratio = (getBuildingLimits (resolvedZone l) false).coverage ∧
      (emitOutput r).coverage_ratio = (getBuildingLimits (resolvedZone l) false).coverage ∧
      r.coverage_ok = true := by
  obtain ⟨hA, hr, hw2, hd2, hok⟩ := coverageStage_gt (resolvedArea l)
    (getBuildingLimits (resolvedZone l) false).coverage
    (Real.sqrt (resolvedArea l) - s.left - s.right)
    (Real.sqrt (resolvedArea l) - s.front - s.back) hpa hw hd
    (limits_facts (resolvedZone l)).1.le hcov
  have hrr : (massResultOf l t s).coverage_ratio =
      (getBuildingLimits (resolvedZone l) false).coverage := by
    simp only [massResultOf]
    exact hr
  refine ⟨massResultOf l t s, calculate_ok l t s hw hd, ?_, ?_, ?_, hrr, ?_, ?_⟩
  · simp only [massResultOf]
    exact hA
  · simp only [massResultOf]
    exact hw2
  · simp only [massResultOf]
    exact hd2
  · simp only [emitOutput]
    rw [hrr]
    exact (limits_facts (resolvedZone l)).2.2.1
  · simp only [massResultOf]
    exact hok

/-- C1 witness: parcel area 500 in the 60 percent coverage zone with
setbacks chosen so the naive footprint is 350 (70 percent coverage); the
corrected footprint is exactly 300 and the ratio exactly 60. -/
theorem coverage_correction_exact_witness :
    ∃ r : MassSuccess,
      calculate (some ⟨some 500, some "제2종일반주거지역", none, none⟩) 1
        ⟨(Real.sqrt 500 - Real.sqrt 350) / 2, (Real.sqrt 500 - Real.sqrt 350) / 2,
         (Real.sqrt 500 - Real.sqrt 350) / 2, (Real.sqrt 500 - Real.sqrt 350) / 2⟩ =
        .ok r ∧
      r.building_area = 300 ∧ r.coverage_ratio = 60 ∧ r.coverage_ok = true := by
  have hra : resolvedArea ⟨some 500, some "제2종일반주거지역", none, none⟩ = 500 := by
    norm_num [resolvedArea]
  have h350 : (0 : ℝ) < Real.sqrt 350 := Real.sqrt_pos.mpr (by norm_num)
  have hdim : Real.sqrt 500 - (Real.sqrt 500 - Real.sqrt 350) / 2 -
      (Real.sqrt 500 - Real.sqrt 350) / 2 = Real.sqrt 350 := by
    ring
  obtain ⟨r, hok, hba, -, -, hr, -, hcok⟩ :=
    coverage_correction_exact ⟨some 500, some "제2종일반주거지역", none, none⟩ 1
      ⟨(Real.sqrt 500 - Real.sqrt 350) / 2, (Real.sqrt 500 - Real.sqrt 350) / 2,
       (Real.sqrt 500 - Real.sqrt 350) / 2, (Real.sqrt 500 - Real.sqrt 350) / 2⟩
      (by rw [hra]; norm_num)
      (by show 0 < Real.sqrt (resolvedArea _) - (Real.sqrt 500 - Real.sqrt 350) / 2 -
            (Real.sqrt 500 - Real.sqrt 350) / 2
          rw [hra, hdim]
          exact h350)
      (by show 0 < Real.sqrt (resolvedArea _) - (Real.sqrt 500 - Real.sqrt 350) / 2 -
            (Real.sqrt 500 - Real.sqrt 350) / 2
          rw [hra, hdim]
          exact h350)
      (by rw [resolvedZone_z2, limits_z2, hra]
          show (60 : ℝ) < (Real.sqrt 500 - (Real.sqrt 500 - Real.sqrt 350) / 2 -
              (Real.sqrt 500 - Real.sqrt 350) / 2) *
            (Real.sqrt 500 - (Real.sqrt 500 - Real.sqrt 350) / 2 -
              (Real.sqrt 500 - Real.sqrt 350) / 2) / 500 * 100
          rw [hdim, Real.mul_self_sqrt (by norm_num : (0 : ℝ) ≤ 350)]
          norm_num)
  refine ⟨r, hok, ?_, ?_, hcok⟩
  · rw [hba, hra, resolvedZone_z2, limits_z2]
    show (500 : ℝ) * 60 / 100 = 300
    norm_num
  · rw [hr, resolvedZone_z2, limits_z2]

/-- C2: when the naive total floor area exceeds the legal FAR, the floor
count becomes the floor (truncation toward zero of a nonnegative value) of
max_floor_area over the corrected footprint, total floor area and FAR are
recomputed from that integer, the FAR flag is set, and the floor count
never exceeds the requested target. -/
theorem far_correction_floor (l : LandCache) (t : ℤ) (s : Setbacks)
    (hpa : 0 < resolvedArea l)
    (hw : 0 < Real.sqrt (resolvedArea l) - s.left - s.right)
    (hd : 0 < Real.sqrt (resolvedArea l) - s.front - s.back)
    (hfar : (getBuildingLimits (resolvedZone l) false).far <
      (coverageStage (resolvedArea l) (getBuildingLimits (resolvedZone l) false).coverage
        (Real.sqrt (resolvedArea l) - s.left - s.right)
        (Real.sqrt (resolvedArea l) - s.front - s.back)).area * (t : ℝ) /
        resolvedArea l * 100) :
    ∃ r : MassSuccess, calculate (some l) t s = .ok r ∧
      r.floors = ⌊resolvedArea l * (getBuildingLimits (resolvedZone l) false).far / 100 /
        (coverageStage (resolvedArea l) (getBuildingLimits (resolvedZone l) false).coverage
          (Real.sqrt (resolvedArea l) - s.left - s.right)
          (Real.sqrt (resolvedArea l) - s.front - s.back)).area⌋ ∧
      r.total_floor_area =
        (coverageStage (resolvedArea l) (getBuildingLimits (resolvedZone l) false).coverage
          (Real.sqrt (resolvedArea l) - s.left - s.right)
          (Real.sqrt (resolvedArea l) - s.front - s.back)).area * (r.floors : ℝ) ∧
      r.far_ratio = r.total_floor_area / resolvedArea l * 100 ∧
      r.far_ok = true ∧
      r.floors < t ∧ 1 ≤ r.floors := by
  obtain ⟨hcovpos, hcf, -, -⟩ := limits_facts (resolvedZone l)
  obtain ⟨hApos, hAle⟩ := coverageStage_area_bounds (resolvedArea l)
    (getBuildingLimits (resolvedZone l) false).coverage
    (Real.sqrt (resolvedArea l) - s.left - s.right)
    (Real.sqrt (resolvedArea l) - s.front - s.back) hpa hw hd hcovpos
  have hfarpos : (0 : ℝ) < (getBuildingLimits (resolvedZone l) false).far :=
    lt_of_lt_of_le hcovpos hcf
  have hnn : 0 ≤ resolvedArea l * (getBuildingLimits (resolvedZone l) false).far / 100 /
      (coverageStage (resolvedArea l) (getBuildingLimits (resolvedZone l) false).coverage
        (Real.sqrt (resolvedArea l) - s.left - s.right)
        (Real.sqrt (resolvedArea l) - s.front - s.back)).area := by
    positivity
  obtain ⟨hfl, htot, hratio, hfok⟩ := farStage_gt (resolvedArea l)
    (getBuildingLimits (resolvedZone l) false).far
    (coverageStage (resolvedArea l) (getBuildingLimits (resolvedZone l) false).coverage
      (Real.sqrt (resolvedArea l) - s.left - s.right)
      (Real.sqrt (resolvedArea l) - s.front - s.back)).area t hnn (not_le.mpr hfar)
  have hflm : (massResultOf l t s).floors =
      ⌊resolvedArea l * (getBuildingLimits (resolvedZone l) false).far / 100 /
        (coverageStage (resolvedArea l) (getBuildingLimits (resolvedZone l) false).coverage
          (Real.sqrt (resolvedArea l) - s.left - s.right)
          (Real.sqrt (resolvedArea l) - s.front - s.back)).area⌋ := by
    simp only [massResultOf]
    exact hfl
  refine ⟨massResultOf l t s, calculate_ok l t s hw hd, hflm, ?_, ?_, ?_, ?_, ?_⟩
  · simp only [massResultOf] at hflm ⊢
    rw [htot, hfl]
  · simp only [massResultOf]
    rw [hratio, htot]
  · simp only [massResultOf]
    exact hfok
  · rw [hflm, Int.floor_lt]
    rw [div_mul_eq_mul_div, lt_div_iff₀ hpa] at hfar
    rw [div_lt_iff₀ hApos]
    nlinarith
  · rw [hflm, Int.le_floor]
    push_cast
    rw [le_div_iff₀ hApos]
    nlinarith

/-- C2 witness: parcel area 500 in the 250 percent FAR zone, footprint 200
after (no) coverage correction, target 10 floors: the corrected floor
count is 6, total floor area 1200 and FAR 240. -/
theorem far_correction_floor_witness :
    ∃ r : MassSuccess,
      calculate (some ⟨some 500, some "제2종일반주거지역", none, none⟩) 10
        ⟨(Real.sqrt 500 - Real.sqrt 200) / 2, (Real.sqrt 500 - Real.sqrt 200) / 2,
         (Real.sqrt 500 - Real.sqrt 200) / 2, (Real.sqrt 500 - Real.sqrt 200) / 2⟩ =
        .ok r ∧
      r.floors = 6 ∧ r.total_floor_area = 1200 ∧ r.far_ratio = 240 ∧
      r.far_ok = true := by
  have hra : resolvedArea ⟨some 500, some "제2종일반주거지역", none, none⟩ = 500 := by
    norm_num [resolvedArea]
  have h200 : (0 : ℝ) < Real.sqrt 200 := Real.sqrt_pos.mpr (by norm_num)
  have hdim : Real.sqrt 500 - (Real.sqrt 500 - Real.sqrt 200) / 2 -
      (Real.sqrt 500 - Real.sqrt 200) / 2 = Real.sqrt 200 := by
    ring
  have hAcalc : (coverageStage 500 (60 : ℝ) (Real.sqrt 200) (Real.sqrt 200)).area = 200 := by
    obtain ⟨hA, -, -, -, -⟩ := coverageStage_le 500 (60 : ℝ) (Real.sqrt 200) (Real.sqrt 200)
      (by rw [Real.mul_self_sqrt (by norm_num : (0 : ℝ) ≤ 200)]
          norm_num)
    rw [hA, Real.mul_self_sqrt (by norm_num : (0 : ℝ) ≤ 200)]
  obtain ⟨r, hok, hfl, htot, hratio, hfok, -, -⟩ :=
    far_correction_floor ⟨some 500, some "제2종일반주거지역", none, none⟩ 10
      ⟨(Real.sqrt 500 - Real.sqrt 200) / 2, (Real.sqrt 500 - Real.sqrt 200) / 2,
       (Real.sqrt 500 - Real.sqrt 200) / 2, (Real.sqrt 500 - Real.sqrt 200) / 2⟩
      (by rw [hra]; norm_num)
      (by show 0 < Real.sqrt (resolvedArea _) - (Real.sqrt 500 - Real.sqrt 200) / 2 -
            (Real.sqrt 500 - Real.sqrt 200) / 2
          rw [hra, hdim]
          exact h200)
      (by show 0 < Real.sqrt (resolvedArea _) - (Real.sqrt 500 - Real.sqrt 200) / 2 -
            (Real.sqrt 500 - Real.sqrt 200) / 2
          rw [hra, hdim]
          exact h200)
      (by rw [resolvedZone_z2, limits_z2, hra]
          show (250 : ℝ) < (coverageStage 500 (60 : ℝ)
              (Real.sqrt 500 - (Real.sqrt 500 - Real.sqrt 200) / 2 -
                (Real.sqrt 500 - Real.sqrt 200) / 2)
              (Real.sqrt 500 - (Real.sqrt 500 - Real.sqrt 200) / 2 -
                (Real.sqrt 500 - Real.sqrt 200) / 2)).area * ((10 : ℤ) : ℝ) / 500 * 100
          rw [hdim, hAcalc]
          norm_num)
  have hfl6 : r.floors = 6 := by
    rw [hfl, hra, resolvedZone_z2, limits_z2]
    show ⌊(500 : ℝ) * 250 / 100 /
        (coverageStage 500 (60 : ℝ)
          (Real.sqrt 500 - (Real.sqrt 500 - Real.sqrt 200) / 2 -
            (Real.sqrt 500 - Real.sqrt 200) / 2)
          (Real.sqrt 500 - (Real.sqrt 500 - Real.sqrt 200) / 2 -
            (Real.sqrt 500 - Real.sqrt 200) / 2)).area⌋ = 6
    rw [hdim, hAcalc]
    rw [show (500 : ℝ) * 250 / 100 / 200 = 6.25 by norm_num]
    rw [Int.floor_eq_iff]
    norm_num
  have htot1200 : r.total_floor_area = 1200 := by
    rw [htot, hra, resolvedZone_z2, limits_z2]
    show (coverageStage 500 (60 : ℝ)
        (Real.sqrt 500 - (Real.sqrt 500 - Real.sqrt 200) / 2 -
          (Real.sqrt 500 - Real.sqrt 200) / 2)
        (Real.sqrt 500 - (Real.sqrt 500 - Real.sqrt 200) / 2 -
          (Real.sqrt 500 - Real.sqrt 200) / 2)).area * (r.floors : ℝ) = 1200
    rw [hdim, hAcalc, hfl6]
    norm_num
  refine ⟨r, hok, hfl6, htot1200, ?_, hfok⟩
  rw [hratio, htot1200, hra]
  norm_num

end AiBuilding
